import Mathlib

/-!
Shallow embedding of the lead-management service (`main.py`).

The service is a CRUD layer over a single `leads` table.  We model:

* the `LeadState` enum (main.py lines 23-25);
* the `Lead` ORM row (lines 31-41).  SQLAlchemy/Python object attributes are
  nullable references, so each data column is modelled as an `Option`; the
  schema-level `nullable=False` / uniqueness declarations are modelled
  separately as `ColumnSpec` data (see `leads_columns`);
* the pydantic request schemas `LeadCreate` (lines 47-51) and `LeadUpdate`
  (lines 53-58).  `LeadUpdate` fields distinguish *unset* from *explicitly
  null* (pydantic `exclude_unset` semantics), hence `Option (Option _)`:
  `none` = field absent from the request, `some none` = explicit null,
  `some (some v)` = value `v`;
* the store as the list of rows in insertion order (SQLite rowid order);
  `utcnow()` is modelled by passing the current time `now : Nat` to each
  operation;
* the endpoint bodies `create_lead`, `get_leads`, `get_lead`, `update_lead`,
  `update_lead_state` (lines 113-224) as functions from store (plus request
  data) to an `Except ApiError` result paired with the resulting store.
  `db.commit()` in the two update handlers enforces the schema: every column
  is `nullable=False`, so flushing a row with a null column raises
  `IntegrityError`, which no handler catches — the request fails (HTTP 500)
  and the transaction rolls back, leaving the store unchanged
  (`violates_not_null`); `create_lead` always inserts fully-populated rows,
  so its commit never hits that path;
* the bearer-token gate `get_current_user` (lines 74-84) and the auth-wrapped
  endpoints.  FastAPI resolves the auth dependency before the handler body
  runs, so an auth failure leaves the store untouched.
-/

/-- The two-value state enum (`class LeadState(str, enum.Enum)`), lines 23-25. -/
inductive LeadState where
  | PENDING
  | REACHED_OUT
deriving DecidableEq, Repr

/-- The string value of a `LeadState` member (it is a `str` enum). -/
def LeadState.str : LeadState → String
  | .PENDING => "PENDING"
  | .REACHED_OUT => "REACHED_OUT"

instance : BEq LeadState := ⟨fun a b => decide (a = b)⟩

instance : LawfulBEq LeadState where
  eq_of_beq h := by simpa [BEq.beq] using h
  rfl := by simp [BEq.beq]

/-- A row of the `leads` table / the SQLAlchemy `Lead` object (lines 31-41).
Python object attributes may hold `None`, so data columns are `Option`s;
`id`, `created_at`, `updated_at` are always populated by the store. -/
structure Lead where
  id : Nat
  first_name : Option String
  last_name : Option String
  email : Option String
  resume_s3_path : Option String
  state : Option LeadState
  created_at : Nat
  updated_at : Nat
deriving DecidableEq, Repr

/-- The persistent store: the `leads` table rows in rowid (insertion) order. -/
structure Store where
  leads : List Lead
deriving DecidableEq, Repr

/-- SQLite integer-primary-key id assignment: the next rowid is one more than
the largest existing rowid (no deletes exist in this service). -/
def Store.nextId (st : Store) : Nat :=
  (st.leads.map Lead.id).foldr Nat.max 0 + 1

/-- The failure kinds surfaced by the endpoints: 422 (pydantic validation),
400 (`"Lead with this email already exists"`, line 120), 404
(`"Lead not found"`), the bearer-token rejection (lines 77-84; a missing
`Authorization` header is rejected by the `HTTPBearer` dependency before
`get_current_user` runs — both rejections are modelled as `unauthorized`),
and `internalError`: the handlers have no try/except around `db.commit()`,
so an `IntegrityError` raised at flush time (every column of the `leads`
table is `nullable=False`) propagates and the request ends as an HTTP 500
with the transaction rolled back. -/
inductive ApiError where
  | validationError
  | duplicateEmail
  | notFound
  | unauthorized
  | internalError
deriving DecidableEq, Repr

instance {ε α : Type} [DecidableEq ε] [DecidableEq α] : DecidableEq (Except ε α) :=
  fun a b =>
    match a, b with
    | .error e, .error e' =>
        if h : e = e' then .isTrue (by simp [h]) else .isFalse (by simp [h])
    | .error _, .ok _ => .isFalse (by simp)
    | .ok _, .error _ => .isFalse (by simp)
    | .ok v, .ok v' =>
        if h : v = v' then .isTrue (by simp [h]) else .isFalse (by simp [h])

/-- Request body of `POST /leads` (`class LeadCreate`, lines 47-51):
four required fields; `first_name`, `last_name`, `resume_s3_path` are plain
`str` (no length constraint), `email` is `EmailStr`. -/
structure LeadCreate where
  first_name : String
  last_name : String
  email : String
  resume_s3_path : String
deriving DecidableEq, Repr

/-- Request body of `PUT /leads/{id}` (`class LeadUpdate`, lines 53-58):
every field `Optional[...] = None`.  The outer `Option` records whether the
field was *set* in the request (pydantic `exclude_unset`); the inner value is
what it was set to (possibly the explicit null `none`). -/
structure LeadUpdate where
  first_name : Option (Option String)
  last_name : Option (Option String)
  email : Option (Option String)
  resume_s3_path : Option (Option String)
  state : Option (Option LeadState)
deriving DecidableEq, Repr

/-- Modelled from the spec: syntactic email validation.  The code delegates to
pydantic's `EmailStr` (an external library, not part of this repository); the
spec only requires "text conforming to email syntax".  We model a simple
syntactic check: exactly one `@`, a non-empty local part, and a dot inside a
non-empty domain.  Only its verdict on concrete inputs matters below. -/
def emailOk (s : String) : Bool :=
  let cs := s.toList
  let l := cs.takeWhile (fun c => c != '@')
  let d := (cs.dropWhile (fun c => c != '@')).drop 1
  cs.count '@' == 1 && !l.isEmpty && !d.isEmpty && d.contains '.'

/-- Pydantic validation of a `POST /leads` body: `first_name`, `last_name`,
`resume_s3_path` are unconstrained `str` (the empty string is accepted);
only `email : EmailStr` is syntactically checked.  Runs before the handler. -/
def validate_create (body : LeadCreate) : Except ApiError LeadCreate :=
  if emailOk body.email then .ok body else .error .validationError

/-- Pydantic validation of a `PUT /leads/{id}` body: only a *provided,
non-null* email is syntactically checked (`Optional[EmailStr]`). -/
def validate_update (body : LeadUpdate) : Except ApiError LeadUpdate :=
  match body.email with
  | some (some e) => if emailOk e then .ok body else .error .validationError
  | _ => .ok body

/-- The fixed API-key allow-list (line 74). -/
def API_KEYS : List String := ["attorney-key-123", "admin-key-456"]

/-- The auth gate (lines 77-84) together with the `HTTPBearer` dependency:
a missing credential, or a credential not in `API_KEYS`, is rejected. -/
def get_current_user (credentials : Option String) : Except ApiError String :=
  match credentials with
  | none => .error .unauthorized
  | some c => if API_KEYS.contains c then .ok c else .error .unauthorized

/-- `POST /leads` handler body (lines 113-143): look for an existing lead with
the same email; if found fail with the duplicate-email error (400), otherwise
insert a new row with state `PENDING` and `created_at = updated_at = now`
(the `utcnow` column defaults, lines 40-41).  The email notifications
(lines 136-141) have no effect on the store or the result. -/
def create_lead (st : Store) (lead : LeadCreate) (now : Nat) :
    Except ApiError Lead × Store :=
  match st.leads.find? (fun l => l.email == some lead.email) with
  | some _ => (.error .duplicateEmail, st)
  | none =>
      let db_lead : Lead :=
        { id := st.nextId
          first_name := some lead.first_name
          last_name := some lead.last_name
          email := some lead.email
          resume_s3_path := some lead.resume_s3_path
          state := some LeadState.PENDING
          created_at := now
          updated_at := now }
      (.ok db_lead, ⟨st.leads ++ [db_lead]⟩)

/-- `GET /leads` handler body (lines 145-162): optional state filter, then
`offset(skip).limit(limit)` — drop `skip` rows, take at most `limit`. -/
def get_leads (st : Store) (skip : Nat) (limit : Nat)
    (state : Option LeadState) : List Lead :=
  let query := st.leads
  let query : List Lead :=
    match state with
    | some s => query.filter (fun l => l.state == some s)
    | none => query
  (query.drop skip).take limit

/-- `GET /leads/{lead_id}` handler body (lines 164-172). -/
def get_lead (st : Store) (lead_id : Nat) : Except ApiError Lead :=
  match st.leads.find? (fun l => l.id == lead_id) with
  | none => .error .notFound
  | some lead => .ok lead

/-- One step of the `setattr` loop (lines 191-192) for a single column:
a field absent from `update_data` (outer `none`) leaves the attribute as it
was; a present field — even an explicit null — overwrites it.
`model_dump(exclude_unset=True)` (line 189) excludes only *unset* fields. -/
def applyField (cur : Option α) (upd : Option (Option α)) : Option α :=
  match upd with
  | none => cur
  | some v => v

/-- Whether flushing row `l` into the `leads` table violates its NOT NULL
constraints: every column of `class Lead` is declared `nullable=False`
(lines 34-41), so `Base.metadata.create_all` emits NOT NULL on all of them;
`id`, `created_at`, `updated_at` are always populated in the model, so the
check falls on the five data columns. -/
def violates_not_null (l : Lead) : Bool :=
  l.first_name.isNone || l.last_name.isNone || l.email.isNone ||
  l.resume_s3_path.isNone || l.state.isNone

/-- `PUT /leads/{lead_id}` handler body (lines 174-200): find the row, apply
the provided fields (`model_dump(exclude_unset=True)` + `setattr`, lines
189-192), refresh `updated_at`, then `db.commit()` (line 197).  The commit
flushes the row against the schema: a null in any column makes SQLite raise
"NOT NULL constraint failed", SQLAlchemy raises `IntegrityError`, the handler
has no try/except, the transaction rolls back — the request fails as an HTTP
500 with the stored row untouched.  Otherwise the row is committed in place. -/
def update_lead (st : Store) (lead_id : Nat) (lead_update : LeadUpdate)
    (now : Nat) : Except ApiError Lead × Store :=
  match st.leads.find? (fun l => l.id == lead_id) with
  | none => (.error .notFound, st)
  | some lead =>
      let lead' : Lead :=
        { lead with
          first_name := applyField lead.first_name lead_update.first_name
          last_name := applyField lead.last_name lead_update.last_name
          email := applyField lead.email lead_update.email
          resume_s3_path :=
            applyField lead.resume_s3_path lead_update.resume_s3_path
          state := applyField lead.state lead_update.state
          updated_at := now }
      if violates_not_null lead' then (.error .internalError, st)
      else (.ok lead',
        ⟨st.leads.map (fun x => if x.id == lead_id then lead' else x)⟩)

/-- `PATCH /leads/{lead_id}/state` handler body (lines 202-224): find the row,
overwrite `state` unconditionally, refresh `updated_at`, then `db.commit()`
(line 219) — the same schema-enforcing flush as in `update_lead` (it never
fires here on a store whose rows are fully populated, since `new_state` is a
validated non-null enum value). -/
def update_lead_state (st : Store) (lead_id : Nat) (new_state : LeadState)
    (now : Nat) : Except ApiError Lead × Store :=
  match st.leads.find? (fun l => l.id == lead_id) with
  | none => (.error .notFound, st)
  | some lead =>
      let lead' : Lead := { lead with state := some new_state, updated_at := now }
      if violates_not_null lead' then (.error .internalError, st)
      else (.ok lead',
        ⟨st.leads.map (fun x => if x.id == lead_id then lead' else x)⟩)

/-- Auth-wrapped `POST /leads`: the bearer check and the body validation are
FastAPI dependencies resolved before the handler body runs. -/
def post_leads (tok : Option String) (st : Store) (body : LeadCreate)
    (now : Nat) : Except ApiError Lead × Store :=
  match get_current_user tok with
  | .error e => (.error e, st)
  | .ok _ =>
      match validate_create body with
      | .error e => (.error e, st)
      | .ok lead => create_lead st lead now

/-- Auth-wrapped `GET /leads`. -/
def list_leads_endpoint (tok : Option String) (st : Store) (skip limit : Nat)
    (state : Option LeadState) : Except ApiError (List Lead) × Store :=
  match get_current_user tok with
  | .error e => (.error e, st)
  | .ok _ => (.ok (get_leads st skip limit state), st)

/-- Auth-wrapped `GET /leads/{lead_id}`. -/
def get_lead_endpoint (tok : Option String) (st : Store) (lead_id : Nat) :
    Except ApiError Lead × Store :=
  match get_current_user tok with
  | .error e => (.error e, st)
  | .ok _ => (get_lead st lead_id, st)

/-- Auth-wrapped `PUT /leads/{lead_id}`. -/
def put_lead_endpoint (tok : Option String) (st : Store) (lead_id : Nat)
    (body : LeadUpdate) (now : Nat) : Except ApiError Lead × Store :=
  match get_current_user tok with
  | .error e => (.error e, st)
  | .ok _ =>
      match validate_update body with
      | .error e => (.error e, st)
      | .ok lead_update => update_lead st lead_id lead_update now

/-- Auth-wrapped `PATCH /leads/{lead_id}/state`. -/
def patch_state_endpoint (tok : Option String) (st : Store) (lead_id : Nat)
    (new_state : LeadState) (now : Nat) : Except ApiError Lead × Store :=
  match get_current_user tok with
  | .error e => (.error e, st)
  | .ok _ => update_lead_state st lead_id new_state now

/-- Schema-level description of one column declaration of the `leads` table. -/
structure ColumnSpec where
  name : String
  nullable : Bool
  unique : Bool
  primary_key : Bool
deriving DecidableEq, Repr

/-- The `leads` table schema exactly as declared in `class Lead` (lines 34-41):
only `id` is a primary key; every column is `nullable=False` except that `id`
is the (non-null) primary key; **no column carries `unique=True`** — in
particular `email = Column(String, nullable=False)` (line 37) declares no
uniqueness constraint. -/
def leads_columns : List ColumnSpec :=
  [ ⟨"id", false, false, true⟩
  , ⟨"first_name", false, false, false⟩
  , ⟨"last_name", false, false, false⟩
  , ⟨"email", false, false, false⟩
  , ⟨"resume_s3_path", false, false, false⟩
  , ⟨"state", false, false, false⟩
  , ⟨"created_at", false, false, false⟩
  , ⟨"updated_at", false, false, false⟩ ]

/-- The value a row holds in a named column, as stored text. -/
def Lead.colval (l : Lead) : String → Option String
  | "id" => some (toString l.id)
  | "first_name" => l.first_name
  | "last_name" => l.last_name
  | "email" => l.email
  | "resume_s3_path" => l.resume_s3_path
  | "state" => l.state.map LeadState.str
  | "created_at" => some (toString l.created_at)
  | "updated_at" => some (toString l.updated_at)
  | _ => none

/-- Whether the storage layer admits inserting row `r` next to the existing
`rows`: every non-nullable column must be populated, and a column declared
unique (or primary key) must not repeat a value already present.  This is the
SQL meaning of the constraint set declared by `leads_columns`. -/
def row_admissible (cols : List ColumnSpec) (rows : List Lead) (r : Lead) : Bool :=
  cols.all (fun c =>
    (c.nullable || (r.colval c.name).isSome) &&
    (!(c.unique || c.primary_key) ||
      rows.all (fun x => x.colval c.name != r.colval c.name)))

/-! ### Helper lemmas -/

/-- Every member of a list of naturals is bounded by the `foldr`-maximum. -/
theorem le_foldr_max (xs : List Nat) (x : Nat) (hx : x ∈ xs) :
    x ≤ xs.foldr Nat.max 0 := by
  induction xs with
  | nil => cases hx
  | cons a t ih =>
      cases hx with
      | head => exact Nat.le_max_left _ _
      | tail _ h => exact Nat.le_trans (ih h) (Nat.le_max_right _ _)

/-- The id assigned to a newly inserted row is strictly larger than the id of
every row already in the store. -/
theorem nextId_fresh (st : Store) (l : Lead) (hl : l ∈ st.leads) :
    l.id < st.nextId := by
  have : l.id ∈ st.leads.map Lead.id := List.mem_map_of_mem _ hl
  exact Nat.lt_succ_of_le (le_foldr_max _ _ this)

/-- A populated attribute stays populated under the `setattr` merge as long
as the update does not provide an explicit null for it. -/
theorem applyField_ne_none {α : Type} (cur : Option α) (upd : Option (Option α))
    (hc : cur ≠ none) (hu : upd ≠ some none) : applyField cur upd ≠ none := by
  cases upd with
  | none => exact hc
  | some v =>
      cases v with
      | none => exact absurd rfl hu
      | some x => simp [applyField]

/-- `isNone` is false on a populated option. -/
theorem isNone_false_of_ne_none {α : Type} (x : Option α) (h : x ≠ none) :
    x.isNone = false := by
  cases x with
  | none => exact absurd rfl h
  | some v => rfl

/-- The commit-time NOT NULL check used by the update handlers agrees with
the NOT NULL constraints transcribed from the schema in `leads_columns`. -/
theorem violates_not_null_eq_schema (l : Lead) :
    violates_not_null l =
      leads_columns.any (fun c => !c.nullable && !(l.colval c.name).isSome) := by
  rcases l with ⟨i, f, ln, e, r, s, c, u⟩
  cases f <;> cases ln <;> cases e <;> cases r <;> cases s <;>
    simp [violates_not_null, leads_columns, Lead.colval]

/-! ### Claims -/

/-- C1 (counterexample).  The claim quantifies over *every* store state, but a
store holding two leads with the same email is reachable (`update_lead` never
re-checks email uniqueness, see C7).  On such a store the failed create does
leave the store unchanged, yet it contains two records for that email, not
"exactly one": the claim's final conjunct is false. -/
theorem c1_counterexample :
    create_lead
        ⟨[⟨1, some "John", some "Doe", some "dup@x.co", some "s3://a",
            some LeadState.PENDING, 0, 0⟩,
          ⟨2, some "Jane", some "Roe", some "dup@x.co", some "s3://b",
            some LeadState.PENDING, 1, 1⟩]⟩
        ⟨"Ann", "Lee", "dup@x.co", "s3://c"⟩ 5 =
      (Except.error ApiError.duplicateEmail,
       ⟨[⟨1, some "John", some "Doe", some "dup@x.co", some "s3://a",
            some LeadState.PENDING, 0, 0⟩,
          ⟨2, some "Jane", some "Roe", some "dup@x.co", some "s3://b",
            some LeadState.PENDING, 1, 1⟩]⟩) ∧
    ¬ ((create_lead
        ⟨[⟨1, some "John", some "Doe", some "dup@x.co", some "s3://a",
            some LeadState.PENDING, 0, 0⟩,
          ⟨2, some "Jane", some "Roe", some "dup@x.co", some "s3://b",
            some LeadState.PENDING, 1, 1⟩]⟩
        ⟨"Ann", "Lee", "dup@x.co", "s3://c"⟩ 5).2.leads.filter
          (fun l => l.email == some "dup@x.co")).length = 1 := by
  decide

/-- C1 (amended): whenever some lead in the store already holds the request's
email — however many do — `create_lead` fails with the duplicate-email error
and leaves the store unchanged, so the store contains exactly as many records
for that email as before the call, and in particular still exactly one when
it held exactly one; when no record holds the email, `create_lead` never
fails with the duplicate-email error. -/
theorem c1_duplicate_email (st : Store) (req : LeadCreate) (now : Nat) :
    ((∃ l ∈ st.leads, l.email = some req.email) →
      create_lead st req now = (Except.error ApiError.duplicateEmail, st) ∧
      ((create_lead st req now).2.leads.filter
          (fun l => l.email == some req.email)).length =
        (st.leads.filter (fun l => l.email == some req.email)).length ∧
      ((st.leads.filter (fun l => l.email == some req.email)).length = 1 →
        ((create_lead st req now).2.leads.filter
            (fun l => l.email == some req.email)).length = 1)) ∧
    ((st.leads.filter (fun l => l.email == some req.email)).length = 0 →
      (create_lead st req now).1 ≠ Except.error ApiError.duplicateEmail) := by
  constructor
  · rintro ⟨l, hl, hmail⟩
    have hsome : (st.leads.find? (fun l => l.email == some req.email)).isSome :=
      List.find?_isSome.mpr ⟨l, hl, by simp [beq_iff_eq, hmail]⟩
    cases hf : st.leads.find? (fun l => l.email == some req.email) with
    | none => rw [hf] at hsome; cases hsome
    | some a =>
        have hcr : create_lead st req now =
            (Except.error ApiError.duplicateEmail, st) := by
          simp [create_lead, hf]
        exact ⟨hcr, by rw [hcr], fun h1 => by rw [hcr]; exact h1⟩
  · intro h0
    cases hf : st.leads.find? (fun l => l.email == some req.email) with
    | none => simp [create_lead, hf]
    | some a =>
        exfalso
        have ha : a ∈ st.leads := List.mem_of_find?_eq_some hf
        have hpa := List.find?_some hf
        have hmem : a ∈ st.leads.filter (fun l => l.email == some req.email) :=
          List.mem_filter.mpr ⟨ha, hpa⟩
        rw [List.length_eq_zero] at h0
        rw [h0] at hmem
        cases hmem

/-- C1 (witness): `c1_duplicate_email` applied to a store already holding
*two* leads with the colliding email (the reachable duplicated state), and to
a store not holding the fresh email. -/
theorem c1_duplicate_email_witness :
    ((∃ l ∈ (Store.mk [⟨1, some "John", some "Doe", some "dup@x.co",
        some "s3://a", some LeadState.PENDING, 0, 0⟩,
      ⟨2, some "Jane", some "Roe", some "dup@x.co", some "s3://b",
        some LeadState.PENDING, 1, 1⟩]).leads, l.email = some "dup@x.co") ∧
      (create_lead ⟨[⟨1, some "John", some "Doe", some "dup@x.co", some "s3://a",
          some LeadState.PENDING, 0, 0⟩,
        ⟨2, some "Jane", some "Roe", some "dup@x.co", some "s3://b",
          some LeadState.PENDING, 1, 1⟩]⟩
          ⟨"Ann", "Lee", "dup@x.co", "s3://c"⟩ 7 =
        (Except.error ApiError.duplicateEmail,
         ⟨[⟨1, some "John", some "Doe", some "dup@x.co", some "s3://a",
            some LeadState.PENDING, 0, 0⟩,
           ⟨2, some "Jane", some "Roe", some "dup@x.co", some "s3://b",
            some LeadState.PENDING, 1, 1⟩]⟩) ∧
       ((create_lead ⟨[⟨1, some "John", some "Doe", some "dup@x.co", some "s3://a",
            some LeadState.PENDING, 0, 0⟩,
          ⟨2, some "Jane", some "Roe", some "dup@x.co", some "s3://b",
            some LeadState.PENDING, 1, 1⟩]⟩
            ⟨"Ann", "Lee", "dup@x.co", "s3://c"⟩ 7).2.leads.filter
              (fun l => l.email == some "dup@x.co")).length =
         ((Store.mk [⟨1, some "John", some "Doe", some "dup@x.co", some "s3://a",
            some LeadState.PENDING, 0, 0⟩,
          ⟨2, some "Jane", some "Roe", some "dup@x.co", some "s3://b",
            some LeadState.PENDING, 1, 1⟩]).leads.filter
              (fun l => l.email == some "dup@x.co")).length ∧
       (((Store.mk [⟨1, some "John", some "Doe", some "dup@x.co", some "s3://a",
            some LeadState.PENDING, 0, 0⟩,
          ⟨2, some "Jane", some "Roe", some "dup@x.co", some "s3://b",
            some LeadState.PENDING, 1, 1⟩]).leads.filter
              (fun l => l.email == some "dup@x.co")).length = 1 →
        ((create_lead ⟨[⟨1, some "John", some "Doe", some "dup@x.co", some "s3://a",
            some LeadState.PENDING, 0, 0⟩,
          ⟨2, some "Jane", some "Roe", some "dup@x.co", some "s3://b",
            some LeadState.PENDING, 1, 1⟩]⟩
            ⟨"Ann", "Lee", "dup@x.co", "s3://c"⟩ 7).2.leads.filter
              (fun l => l.email == some "dup@x.co")).length = 1))) ∧
    (((Store.mk [⟨1, some "John", some "Doe", some "dup@x.co", some "s3://a",
        some LeadState.PENDING, 0, 0⟩]).leads.filter
          (fun l => l.email == some "new@x.co")).length = 0 ∧
      (create_lead ⟨[⟨1, some "John", some "Doe", some "dup@x.co", some "s3://a",
          some LeadState.PENDING, 0, 0⟩]⟩ ⟨"Ann", "Lee", "new@x.co", "s3://c"⟩
          7).1 ≠ Except.error ApiError.duplicateEmail) :=
  ⟨⟨by decide,
    (c1_duplicate_email
      ⟨[⟨1, some "John", some "Doe", some "dup@x.co", some "s3://a",
          some LeadState.PENDING, 0, 0⟩,
        ⟨2, some "Jane", some "Roe", some "dup@x.co", some "s3://b",
          some LeadState.PENDING, 1, 1⟩]⟩
      ⟨"Ann", "Lee", "dup@x.co", "s3://c"⟩ 7).1 (by decide)⟩,
   ⟨by decide,
    (c1_duplicate_email
      ⟨[⟨1, some "John", some "Doe", some "dup@x.co", some "s3://a",
          some LeadState.PENDING, 0, 0⟩]⟩
      ⟨"Ann", "Lee", "new@x.co", "s3://c"⟩ 7).2 (by decide)⟩⟩

/-- C2: creating a lead with a fresh email succeeds; the returned row carries
a new id distinct from every existing row's id, state `PENDING`,
`created_at = updated_at = now`, exactly the request's field values, and it is
appended to the store. -/
theorem c2_create_fresh (st : Store) (req : LeadCreate) (now : Nat)
    (h : ∀ l ∈ st.leads, l.email ≠ some req.email) :
    ∃ db_lead : Lead,
      create_lead st req now = (Except.ok db_lead, ⟨st.leads ++ [db_lead]⟩) ∧
      (∀ l ∈ st.leads, db_lead.id ≠ l.id) ∧
      db_lead.state = some LeadState.PENDING ∧
      db_lead.created_at = now ∧
      db_lead.updated_at = now ∧
      db_lead.first_name = some req.first_name ∧
      db_lead.last_name = some req.last_name ∧
      db_lead.email = some req.email ∧
      db_lead.resume_s3_path = some req.resume_s3_path := by
  have hf : st.leads.find? (fun l => l.email == some req.email) = none := by
    rw [List.find?_eq_none]
    intro x hx
    simp only [beq_iff_eq]
    exact h x hx
  refine ⟨⟨st.nextId, some req.first_name, some req.last_name, some req.email,
      some req.resume_s3_path, some LeadState.PENDING, now, now⟩,
    by simp [create_lead, hf], ?_, rfl, rfl, rfl, rfl, rfl, rfl, rfl⟩
  intro l hl
  exact Nat.ne_of_gt (nextId_fresh st l hl)

/-- C2 (witness): `c2_create_fresh` applied to a one-lead store and a request
with a fresh email. -/
theorem c2_create_fresh_witness :
    (∀ l ∈ (Store.mk [⟨1, some "John", some "Doe", some "old@x.co", some "s3://a",
        some LeadState.PENDING, 0, 0⟩]).leads, l.email ≠ some "new@x.co") ∧
    (∃ db_lead : Lead,
      create_lead ⟨[⟨1, some "John", some "Doe", some "old@x.co", some "s3://a",
          some LeadState.PENDING, 0, 0⟩]⟩ ⟨"Ann", "Lee", "new@x.co", "s3://c"⟩ 9 =
        (Except.ok db_lead,
         ⟨(Store.mk [⟨1, some "John", some "Doe", some "old@x.co", some "s3://a",
            some LeadState.PENDING, 0, 0⟩]).leads ++ [db_lead]⟩) ∧
      (∀ l ∈ (Store.mk [⟨1, some "John", some "Doe", some "old@x.co", some "s3://a",
          some LeadState.PENDING, 0, 0⟩]).leads, db_lead.id ≠ l.id) ∧
      db_lead.state = some LeadState.PENDING ∧
      db_lead.created_at = 9 ∧
      db_lead.updated_at = 9 ∧
      db_lead.first_name = some "Ann" ∧
      db_lead.last_name = some "Lee" ∧
      db_lead.email = some "new@x.co" ∧
      db_lead.resume_s3_path = some "s3://c") :=
  ⟨by decide,
   c2_create_fresh
     ⟨[⟨1, some "John", some "Doe", some "old@x.co", some "s3://a",
        some LeadState.PENDING, 0, 0⟩]⟩
     ⟨"Ann", "Lee", "new@x.co", "s3://c"⟩ 9 (by decide)⟩

/-- C3 (counterexample).  The claim asserts that *every* partial-update
request on an existing lead is applied and refreshes `updated_at`.  A request
that sets a provided field to the explicit null is kept by
`model_dump(exclude_unset=True)`, and committing the merged row violates that
column's NOT NULL constraint: the request fails (unhandled `IntegrityError`,
HTTP 500), the store is unchanged, nothing is applied, and no stored row has
`updated_at = 9`. -/
theorem c3_counterexample :
    update_lead ⟨[⟨1, some "John", some "Doe", some "a@b.co", some "s3://a",
        some LeadState.PENDING, 0, 0⟩]⟩ 1
        ⟨some none, none, none, none, none⟩ 9 =
      (Except.error ApiError.internalError,
       ⟨[⟨1, some "John", some "Doe", some "a@b.co", some "s3://a",
          some LeadState.PENDING, 0, 0⟩]⟩) ∧
    ((update_lead ⟨[⟨1, some "John", some "Doe", some "a@b.co", some "s3://a",
        some LeadState.PENDING, 0, 0⟩]⟩ 1
        ⟨some none, none, none, none, none⟩ 9).2.leads.filter
          (fun l => l.updated_at == 9)).length = 0 := by
  decide

/-- C3 (amended): for an existing lead whose stored row has every column
populated (as the NOT NULL schema guarantees for persisted rows): a
partial-update request none of whose provided fields is an explicit null is
applied — exactly the provided subset overwrites the row, every unspecified
field (and `id` and `created_at`) keeps its prior value, the row is committed
in place, and `updated_at` is set to the current time even when the provided
set is empty; a request providing an explicit null for some field instead
fails at commit with the NOT NULL `IntegrityError` (HTTP 500) and leaves the
store unchanged. -/
theorem c3_update_frame (st : Store) (lead_id : Nat) (u : LeadUpdate)
    (now : Nat) (lead : Lead)
    (hfind : st.leads.find? (fun l => l.id == lead_id) = some lead)
    (hrow : lead.first_name ≠ none ∧ lead.last_name ≠ none ∧
      lead.email ≠ none ∧ lead.resume_s3_path ≠ none ∧ lead.state ≠ none) :
    ((u.first_name ≠ some none ∧ u.last_name ≠ some none ∧
      u.email ≠ some none ∧ u.resume_s3_path ≠ some none ∧
      u.state ≠ some none) →
      ∃ lead' : Lead,
        update_lead st lead_id u now =
          (Except.ok lead',
           ⟨st.leads.map (fun x => if x.id == lead_id then lead' else x)⟩) ∧
        lead'.id = lead.id ∧
        lead'.created_at = lead.created_at ∧
        lead'.updated_at = now ∧
        (u.first_name = none → lead'.first_name = lead.first_name) ∧
        (∀ v, u.first_name = some v → lead'.first_name = v) ∧
        (u.last_name = none → lead'.last_name = lead.last_name) ∧
        (∀ v, u.last_name = some v → lead'.last_name = v) ∧
        (u.email = none → lead'.email = lead.email) ∧
        (∀ v, u.email = some v → lead'.email = v) ∧
        (u.resume_s3_path = none → lead'.resume_s3_path = lead.resume_s3_path) ∧
        (∀ v, u.resume_s3_path = some v → lead'.resume_s3_path = v) ∧
        (u.state = none → lead'.state = lead.state) ∧
        (∀ v, u.state = some v → lead'.state = v)) ∧
    ((u.first_name = some none ∨ u.last_name = some none ∨
      u.email = some none ∨ u.resume_s3_path = some none ∨
      u.state = some none) →
      update_lead st lead_id u now = (Except.error ApiError.internalError, st)) := by
  obtain ⟨r1, r2, r3, r4, r5⟩ := hrow
  constructor
  · rintro ⟨h1, h2, h3, h4, h5⟩
    have g : violates_not_null { lead with
        first_name := applyField lead.first_name u.first_name
        last_name := applyField lead.last_name u.last_name
        email := applyField lead.email u.email
        resume_s3_path := applyField lead.resume_s3_path u.resume_s3_path
        state := applyField lead.state u.state
        updated_at := now } = false := by
      simp [violates_not_null,
        isNone_false_of_ne_none _ (applyField_ne_none _ _ r1 h1),
        isNone_false_of_ne_none _ (applyField_ne_none _ _ r2 h2),
        isNone_false_of_ne_none _ (applyField_ne_none _ _ r3 h3),
        isNone_false_of_ne_none _ (applyField_ne_none _ _ r4 h4),
        isNone_false_of_ne_none _ (applyField_ne_none _ _ r5 h5)]
    refine ⟨{ lead with
        first_name := applyField lead.first_name u.first_name
        last_name := applyField lead.last_name u.last_name
        email := applyField lead.email u.email
        resume_s3_path := applyField lead.resume_s3_path u.resume_s3_path
        state := applyField lead.state u.state
        updated_at := now },
      by simp [update_lead, hfind, g], rfl, rfl, rfl, ?_, ?_, ?_, ?_, ?_, ?_,
      ?_, ?_, ?_, ?_⟩ <;>
    · first
      | (intro hu; simp [applyField, hu])
      | (intro v hu; simp [applyField, hu])
  · intro hcase
    have g : violates_not_null { lead with
        first_name := applyField lead.first_name u.first_name
        last_name := applyField lead.last_name u.last_name
        email := applyField lead.email u.email
        resume_s3_path := applyField lead.resume_s3_path u.resume_s3_path
        state := applyField lead.state u.state
        updated_at := now } = true := by
      rcases hcase with h | h | h | h | h <;>
        simp [violates_not_null, applyField, h]
    simp [update_lead, hfind, g]

/-- C3 (witness): `c3_update_frame` applied to a one-lead store with a fully
populated row and an update providing only a non-null `first_name`. -/
theorem c3_update_frame_witness :
    ((Store.mk [⟨1, some "John", some "Doe", some "a@b.co", some "s3://a",
        some LeadState.PENDING, 0, 0⟩]).leads.find? (fun l => l.id == 1) =
      some ⟨1, some "John", some "Doe", some "a@b.co", some "s3://a",
        some LeadState.PENDING, 0, 0⟩) ∧
    ((some "John" : Option String) ≠ none ∧ (some "Doe" : Option String) ≠ none ∧
      (some "a@b.co" : Option String) ≠ none ∧
      (some "s3://a" : Option String) ≠ none ∧
      (some LeadState.PENDING : Option LeadState) ≠ none) ∧
    ((((some (some "Jane") : Option (Option String)) ≠ some none ∧
       (none : Option (Option String)) ≠ some none ∧
       (none : Option (Option String)) ≠ some none ∧
       (none : Option (Option String)) ≠ some none ∧
       (none : Option (Option LeadState)) ≠ some none) →
      ∃ lead' : Lead,
        update_lead ⟨[⟨1, some "John", some "Doe", some "a@b.co", some "s3://a",
            some LeadState.PENDING, 0, 0⟩]⟩ 1
            ⟨some (some "Jane"), none, none, none, none⟩ 9 =
          (Except.ok lead',
           ⟨(Store.mk [⟨1, some "John", some "Doe", some "a@b.co", some "s3://a",
              some LeadState.PENDING, 0, 0⟩]).leads.map
                (fun x => if x.id == 1 then lead' else x)⟩) ∧
        lead'.id = 1 ∧
        lead'.created_at = 0 ∧
        lead'.updated_at = 9 ∧
        ((some (some "Jane") : Option (Option String)) = none →
          lead'.first_name = some "John") ∧
        (∀ v, (some (some "Jane") : Option (Option String)) = some v →
          lead'.first_name = v) ∧
        ((none : Option (Option String)) = none → lead'.last_name = some "Doe") ∧
        (∀ v, (none : Option (Option String)) = some v → lead'.last_name = v) ∧
        ((none : Option (Option String)) = none → lead'.email = some "a@b.co") ∧
        (∀ v, (none : Option (Option String)) = some v → lead'.email = v) ∧
        ((none : Option (Option String)) = none →
          lead'.resume_s3_path = some "s3://a") ∧
        (∀ v, (none : Option (Option String)) = some v →
          lead'.resume_s3_path = v) ∧
        ((none : Option (Option LeadState)) = none →
          lead'.state = some LeadState.PENDING) ∧
        (∀ v, (none : Option (Option LeadState)) = some v → lead'.state = v)) ∧
     (((some (some "Jane") : Option (Option String)) = some none ∨
       (none : Option (Option String)) = some none ∨
       (none : Option (Option String)) = some none ∨
       (none : Option (Option String)) = some none ∨
       (none : Option (Option LeadState)) = some none) →
      update_lead ⟨[⟨1, some "John", some "Doe", some "a@b.co", some "s3://a",
          some LeadState.PENDING, 0, 0⟩]⟩ 1
          ⟨some (some "Jane"), none, none, none, none⟩ 9 =
        (Except.error ApiError.internalError,
         ⟨[⟨1, some "John", some "Doe", some "a@b.co", some "s3://a",
            some LeadState.PENDING, 0, 0⟩]⟩))) :=
  ⟨by decide, by decide,
   c3_update_frame
     ⟨[⟨1, some "John", some "Doe", some "a@b.co", some "s3://a",
        some LeadState.PENDING, 0, 0⟩]⟩ 1
     ⟨some (some "Jane"), none, none, none, none⟩ 9
     ⟨1, some "John", some "Doe", some "a@b.co", some "s3://a",
        some LeadState.PENDING, 0, 0⟩ (by decide) (by decide)⟩

/-- C4: the claim says the persisted schema enforces email uniqueness as a
hard constraint.  The declared schema (`leads_columns`, read off
`class Lead`, lines 31-41) carries no `unique=True` on the `email` column, so
the storage layer admits a second row holding an email already present: the
code contradicts the spec's explicit design requirement. -/
theorem c4_no_schema_email_uniqueness :
    ((leads_columns.filter (fun c => c.name == "email")).length = 1 ∧
     (leads_columns.filter (fun c => c.name == "email")).all
        (fun c => !c.unique && !c.primary_key) = true) ∧
    row_admissible leads_columns
      [⟨1, some "John", some "Doe", some "dup@x.co", some "s3://a",
          some LeadState.PENDING, 0, 0⟩]
      ⟨2, some "Jane", some "Roe", some "dup@x.co", some "s3://b",
          some LeadState.PENDING, 1, 1⟩ = true := by
  decide

/-- C5: `update_lead_state lead_id new_state` is observationally equal to
`update_lead lead_id` with the partial update providing exactly
`state := new_state`: identical result and identical resulting store (hence
identical NotFound behaviour, identical `updated_at` refresh, identical
untouched fields), with no condition on the prior state value; and it fails
with NotFound exactly when no row has the id. -/
theorem c5_transition_refines_update (st : Store) (lead_id : Nat)
    (new_state : LeadState) (now : Nat) :
    update_lead_state st lead_id new_state now =
      update_lead st lead_id ⟨none, none, none, none, some (some new_state)⟩ now ∧
    ((update_lead_state st lead_id new_state now).1 =
        Except.error ApiError.notFound ↔
      st.leads.find? (fun l => l.id == lead_id) = none) := by
  cases hf : st.leads.find? (fun l => l.id == lead_id) with
  | none => exact ⟨by simp [update_lead_state, update_lead, hf],
      by simp [update_lead_state, hf]⟩
  | some lead =>
      refine ⟨by simp [update_lead_state, update_lead, hf, applyField], ?_⟩
      cases hv : violates_not_null
          { lead with state := some new_state, updated_at := now } <;>
        simp [update_lead_state, hf, hv]

/-- C6: `get_leads` returns the `(skip .. skip+limit)` slice of the full
store-ordered list of leads matching the optional state filter (all leads
when no filter): the result has length at most `limit`, equals that slice,
and under a filter every returned lead's state equals the filter value. -/
theorem c6_list_pagination (st : Store) (skip limit : Nat)
    (state : Option LeadState) (hlim : 0 < limit) :
    (get_leads st skip limit state).length ≤ limit ∧
    get_leads st skip limit state =
      (((match state with
        | some s => st.leads.filter (fun l => l.state == some s)
        | none => st.leads : List Lead)).drop skip).take limit ∧
    (∀ s, state = some s →
      ∀ l ∈ get_leads st skip limit state, l.state = some s) := by
  refine ⟨List.length_take_le _ _, rfl, ?_⟩
  intro s hs l hl
  rw [hs] at hl
  have hdrop := List.mem_of_mem_take hl
  have hfil := List.mem_of_mem_drop hdrop
  have := (List.mem_filter.mp hfil).2
  exact beq_iff_eq.mp this

/-- C6 (witness): `c6_list_pagination` on a three-lead store with
`skip = 1`, `limit = 1` and the `PENDING` filter. -/
theorem c6_list_pagination_witness :
    (0 < 1) ∧
    ((get_leads ⟨[⟨1, some "John", some "Doe", some "a@x.co", some "s3://a",
          some LeadState.PENDING, 0, 0⟩,
        ⟨2, some "Jane", some "Roe", some "b@x.co", some "s3://b",
          some LeadState.REACHED_OUT, 1, 1⟩,
        ⟨3, some "Bob", some "Lee", some "c@x.co", some "s3://c",
          some LeadState.PENDING, 2, 2⟩]⟩ 1 1 (some LeadState.PENDING)).length
        ≤ 1 ∧
      get_leads ⟨[⟨1, some "John", some "Doe", some "a@x.co", some "s3://a",
          some LeadState.PENDING, 0, 0⟩,
        ⟨2, some "Jane", some "Roe", some "b@x.co", some "s3://b",
          some LeadState.REACHED_OUT, 1, 1⟩,
        ⟨3, some "Bob", some "Lee", some "c@x.co", some "s3://c",
          some LeadState.PENDING, 2, 2⟩]⟩ 1 1 (some LeadState.PENDING) =
        (((Store.mk [⟨1, some "John", some "Doe", some "a@x.co", some "s3://a",
            some LeadState.PENDING, 0, 0⟩,
          ⟨2, some "Jane", some "Roe", some "b@x.co", some "s3://b",
            some LeadState.REACHED_OUT, 1, 1⟩,
          ⟨3, some "Bob", some "Lee", some "c@x.co", some "s3://c",
            some LeadState.PENDING, 2, 2⟩]).leads.filter
              (fun l => l.state == some LeadState.PENDING)).drop 1).take 1 ∧
      (∀ s, (some LeadState.PENDING : Option LeadState) = some s →
        ∀ l ∈ get_leads ⟨[⟨1, some "John", some "Doe", some "a@x.co",
            some "s3://a", some LeadState.PENDING, 0, 0⟩,
          ⟨2, some "Jane", some "Roe", some "b@x.co", some "s3://b",
            some LeadState.REACHED_OUT, 1, 1⟩,
          ⟨3, some "Bob", some "Lee", some "c@x.co", some "s3://c",
            some LeadState.PENDING, 2, 2⟩]⟩ 1 1 (some LeadState.PENDING),
          l.state = some s)) :=
  ⟨by decide,
   c6_list_pagination
     ⟨[⟨1, some "John", some "Doe", some "a@x.co", some "s3://a",
          some LeadState.PENDING, 0, 0⟩,
       ⟨2, some "Jane", some "Roe", some "b@x.co", some "s3://b",
          some LeadState.REACHED_OUT, 1, 1⟩,
       ⟨3, some "Bob", some "Lee", some "c@x.co", some "s3://c",
          some LeadState.PENDING, 2, 2⟩]⟩ 1 1 (some LeadState.PENDING)
     (by decide)⟩

/-- C8 (counterexample).  The claim says a create request with an empty
`first_name` fails with a validation error before any record is stored.  The
pydantic model declares plain unconstrained `str` fields, so a request with
`first_name = ""` (and a syntactically valid email) passes validation, and the
handler stores the row: the record is stored, and no validation error is
raised, although `first_name` is empty. -/
theorem c8_counterexample :
    post_leads (some "attorney-key-123") ⟨[]⟩ ⟨"", "Doe", "a@b.co", "s3://r"⟩ 3 =
      (Except.ok ⟨1, some "", some "Doe", some "a@b.co", some "s3://r",
          some LeadState.PENDING, 3, 3⟩,
       ⟨[⟨1, some "", some "Doe", some "a@b.co", some "s3://r",
          some LeadState.PENDING, 3, 3⟩]⟩) ∧
    (post_leads (some "attorney-key-123") ⟨[]⟩
        ⟨"", "Doe", "a@b.co", "s3://r"⟩ 3).1 ≠
      Except.error ApiError.validationError := by
  decide

/-- C8 (amended): for an authorized request, create fails with a validation
error — leaving the store unchanged — exactly when the email fails syntactic
validation; when the email is valid the request reaches the store logic
untouched, regardless of whether `first_name`, `last_name` or
`resume_s3_path` are empty (their emptiness is never checked). -/
theorem c8_validation (tok : Option String) (st : Store) (body : LeadCreate)
    (now : Nat) (k : String) (hauth : get_current_user tok = Except.ok k) :
    (emailOk body.email = false →
      post_leads tok st body now = (Except.error ApiError.validationError, st)) ∧
    (emailOk body.email = true →
      post_leads tok st body now = create_lead st body now) := by
  constructor
  · intro hbad
    simp [post_leads, hauth, validate_create, hbad]
  · intro hgood
    simp [post_leads, hauth, validate_create, hgood]

/-- C8 (witness): `c8_validation` applied with a valid key and the email
`"invalid-email"` (no `@`), which fails the syntactic check. -/
theorem c8_validation_witness :
    (get_current_user (some "attorney-key-123") =
      Except.ok "attorney-key-123") ∧
    ((emailOk "invalid-email" = false →
      post_leads (some "attorney-key-123") ⟨[]⟩
          ⟨"John", "Doe", "invalid-email", "s3://r"⟩ 3 =
        (Except.error ApiError.validationError, ⟨[]⟩)) ∧
     (emailOk "invalid-email" = true →
      post_leads (some "attorney-key-123") ⟨[]⟩
          ⟨"John", "Doe", "invalid-email", "s3://r"⟩ 3 =
        create_lead ⟨[]⟩ ⟨"John", "Doe", "invalid-email", "s3://r"⟩ 3)) ∧
    emailOk "invalid-email" = false :=
  ⟨by decide,
   c8_validation (some "attorney-key-123") ⟨[]⟩
     ⟨"John", "Doe", "invalid-email", "s3://r"⟩ 3 "attorney-key-123"
     (by decide),
   by decide⟩

/-- C9: a request whose bearer token is missing or not in the fixed allow-list
fails with the unauthorized error on every protected endpoint, and the store
is returned completely unchanged — no record is created or modified. -/
theorem c9_unauthorized_no_effect (tok : Option String)
    (h : tok = none ∨ ∀ k, tok = some k → k ∉ API_KEYS)
    (st : Store) (body : LeadCreate) (u : LeadUpdate)
    (lead_id skip limit now : Nat) (state : Option LeadState)
    (new_state : LeadState) :
    post_leads tok st body now = (Except.error ApiError.unauthorized, st) ∧
    list_leads_endpoint tok st skip limit state =
      (Except.error ApiError.unauthorized, st) ∧
    get_lead_endpoint tok st lead_id = (Except.error ApiError.unauthorized, st) ∧
    put_lead_endpoint tok st lead_id u now =
      (Except.error ApiError.unauthorized, st) ∧
    patch_state_endpoint tok st lead_id new_state now =
      (Except.error ApiError.unauthorized, st) := by
  have hrej : get_current_user tok = Except.error ApiError.unauthorized := by
    cases h with
    | inl hn => rw [hn]; rfl
    | inr hk =>
        cases tok with
        | none => rfl
        | some c => simp [get_current_user, hk c rfl]
  exact ⟨by simp [post_leads, hrej], by simp [list_leads_endpoint, hrej],
    by simp [get_lead_endpoint, hrej], by simp [put_lead_endpoint, hrej],
    by simp [patch_state_endpoint, hrej]⟩

/-- C9 (witness): `c9_unauthorized_no_effect` applied with the token
`"invalid-key"`, which is not in the allow-list, against a one-lead store. -/
theorem c9_unauthorized_no_effect_witness :
    ((some "invalid-key" : Option String) = none ∨
      ∀ k, (some "invalid-key" : Option String) = some k →
        k ∉ API_KEYS) ∧
    (post_leads (some "invalid-key")
        ⟨[⟨1, some "John", some "Doe", some "a@x.co", some "s3://a",
            some LeadState.PENDING, 0, 0⟩]⟩ ⟨"Ann", "Lee", "n@x.co", "s3://c"⟩
        9 =
      (Except.error ApiError.unauthorized,
       ⟨[⟨1, some "John", some "Doe", some "a@x.co", some "s3://a",
            some LeadState.PENDING, 0, 0⟩]⟩) ∧
     list_leads_endpoint (some "invalid-key")
        ⟨[⟨1, some "John", some "Doe", some "a@x.co", some "s3://a",
            some LeadState.PENDING, 0, 0⟩]⟩ 0 100 none =
      (Except.error ApiError.unauthorized,
       ⟨[⟨1, some "John", some "Doe", some "a@x.co", some "s3://a",
            some LeadState.PENDING, 0, 0⟩]⟩) ∧
     get_lead_endpoint (some "invalid-key")
        ⟨[⟨1, some "John", some "Doe", some "a@x.co", some "s3://a",
            some LeadState.PENDING, 0, 0⟩]⟩ 1 =
      (Except.error ApiError.unauthorized,
       ⟨[⟨1, some "John", some "Doe", some "a@x.co", some "s3://a",
            some LeadState.PENDING, 0, 0⟩]⟩) ∧
     put_lead_endpoint (some "invalid-key")
        ⟨[⟨1, some "John", some "Doe", some "a@x.co", some "s3://a",
            some LeadState.PENDING, 0, 0⟩]⟩ 1
        ⟨some (some "Jane"), none, none, none, none⟩ 9 =
      (Except.error ApiError.unauthorized,
       ⟨[⟨1, some "John", some "Doe", some "a@x.co", some "s3://a",
            some LeadState.PENDING, 0, 0⟩]⟩) ∧
     patch_state_endpoint (some "invalid-key")
        ⟨[⟨1, some "John", some "Doe", some "a@x.co", some "s3://a",
            some LeadState.PENDING, 0, 0⟩]⟩ 1 LeadState.REACHED_OUT 9 =
      (Except.error ApiError.unauthorized,
       ⟨[⟨1, some "John", some "Doe", some "a@x.co", some "s3://a",
            some LeadState.PENDING, 0, 0⟩]⟩)) :=
  ⟨Or.inr (fun k hk => by
      injection hk with hk2
      rw [← hk2]
      decide),
   c9_unauthorized_no_effect (some "invalid-key")
     (Or.inr (fun k hk => by
        injection hk with hk2
        rw [← hk2]
        decide))
     ⟨[⟨1, some "John", some "Doe", some "a@x.co", some "s3://a",
          some LeadState.PENDING, 0, 0⟩]⟩
     ⟨"Ann", "Lee", "n@x.co", "s3://c"⟩
     ⟨some (some "Jane"), none, none, none, none⟩ 1 0 100 9 none
     LeadState.REACHED_OUT⟩

/-- C10 (counterexample).  The claim asserts the explicit null overwrites the
stored value of the field.  `model_dump(exclude_unset=True)` does keep the
explicit null and the `setattr` merge applies it to the in-memory row, but
`db.commit()` then violates the `first_name` column's NOT NULL constraint:
the request fails (unhandled `IntegrityError`, HTTP 500), the store is
unchanged, and no stored row holds a null `first_name` — the stored value is
left untouched, not overwritten. -/
theorem c10_counterexample :
    update_lead ⟨[⟨1, some "Ann", some "Roe", some "c@d.co", some "s3://r",
        some LeadState.PENDING, 2, 2⟩]⟩ 1
        ⟨some none, none, none, none, none⟩ 8 =
      (Except.error ApiError.internalError,
       ⟨[⟨1, some "Ann", some "Roe", some "c@d.co", some "s3://r",
          some LeadState.PENDING, 2, 2⟩]⟩) ∧
    ((update_lead ⟨[⟨1, some "Ann", some "Roe", some "c@d.co", some "s3://r",
        some LeadState.PENDING, 2, 2⟩]⟩ 1
        ⟨some none, none, none, none, none⟩ 8).2.leads.filter
          (fun l => l.first_name == (none : Option String))).length = 0 := by
  decide

/-- C10 (amended): an explicit null is *not* treated as an unspecified field,
but it is not persisted either.  For an existing fully-populated lead: an
update providing the explicit null for `first_name` (other provided fields
non-null) keeps the null through the `exclude_unset` merge and therefore
fails the NOT NULL commit — HTTP 500, store unchanged — whereas the same
update with `first_name` simply left unset succeeds and leaves the stored
`first_name` untouched. -/
theorem c10_explicit_null_applied (st : Store) (lead_id : Nat)
    (u u' : LeadUpdate) (now : Nat) (lead : Lead)
    (hfind : st.leads.find? (fun l => l.id == lead_id) = some lead)
    (hrow : lead.first_name ≠ none ∧ lead.last_name ≠ none ∧
      lead.email ≠ none ∧ lead.resume_s3_path ≠ none ∧ lead.state ≠ none)
    (hnull : u.first_name = some none)
    (hrest : u.last_name ≠ some none ∧ u.email ≠ some none ∧
      u.resume_s3_path ≠ some none ∧ u.state ≠ some none)
    (hu' : u' = { u with first_name := none }) :
    update_lead st lead_id u now = (Except.error ApiError.internalError, st) ∧
    (∃ lead', (update_lead st lead_id u' now).1 = Except.ok lead' ∧
      lead'.first_name = lead.first_name) := by
  obtain ⟨r1, r2, r3, r4, r5⟩ := hrow
  obtain ⟨k2, k3, k4, k5⟩ := hrest
  constructor
  · have g : violates_not_null { lead with
        first_name := applyField lead.first_name u.first_name
        last_name := applyField lead.last_name u.last_name
        email := applyField lead.email u.email
        resume_s3_path := applyField lead.resume_s3_path u.resume_s3_path
        state := applyField lead.state u.state
        updated_at := now } = true := by
      simp [violates_not_null, applyField, hnull]
    simp [update_lead, hfind, g]
  · subst hu'
    have g2 : violates_not_null { lead with
        first_name := applyField lead.first_name
          (none : Option (Option String))
        last_name := applyField lead.last_name u.last_name
        email := applyField lead.email u.email
        resume_s3_path := applyField lead.resume_s3_path u.resume_s3_path
        state := applyField lead.state u.state
        updated_at := now } = false := by
      simp [violates_not_null,
        isNone_false_of_ne_none _ (applyField_ne_none lead.first_name
          (none : Option (Option String)) r1 (by simp)),
        isNone_false_of_ne_none _ (applyField_ne_none _ _ r2 k2),
        isNone_false_of_ne_none _ (applyField_ne_none _ _ r3 k3),
        isNone_false_of_ne_none _ (applyField_ne_none _ _ r4 k4),
        isNone_false_of_ne_none _ (applyField_ne_none _ _ r5 k5)]
    exact ⟨{ lead with
        first_name := applyField lead.first_name
          (none : Option (Option String))
        last_name := applyField lead.last_name u.last_name
        email := applyField lead.email u.email
        resume_s3_path := applyField lead.resume_s3_path u.resume_s3_path
        state := applyField lead.state u.state
        updated_at := now },
      by simp [update_lead, hfind, g2], by simp [applyField]⟩

/-- C10 (witness): `c10_explicit_null_applied` applied to a lead whose
`first_name` is `"John"`, the update providing the explicit null for
`first_name`, and the same update with `first_name` left unset. -/
theorem c10_explicit_null_applied_witness :
    ((Store.mk [⟨1, some "John", some "Doe", some "a@b.co", some "s3://a",
        some LeadState.PENDING, 0, 0⟩]).leads.find? (fun l => l.id == 1) =
      some ⟨1, some "John", some "Doe", some "a@b.co", some "s3://a",
        some LeadState.PENDING, 0, 0⟩) ∧
    ((some "John" : Option String) ≠ none ∧ (some "Doe" : Option String) ≠ none ∧
      (some "a@b.co" : Option String) ≠ none ∧
      (some "s3://a" : Option String) ≠ none ∧
      (some LeadState.PENDING : Option LeadState) ≠ none) ∧
    ((⟨some none, none, none, none, none⟩ : LeadUpdate).first_name =
      some none) ∧
    ((⟨none, none, none, none, none⟩ : LeadUpdate) =
      { (⟨some none, none, none, none, none⟩ : LeadUpdate) with
        first_name := none }) ∧
    (update_lead ⟨[⟨1, some "John", some "Doe", some "a@b.co", some "s3://a",
        some LeadState.PENDING, 0, 0⟩]⟩ 1
        ⟨some none, none, none, none, none⟩ 9 =
      (Except.error ApiError.internalError,
       ⟨[⟨1, some "John", some "Doe", some "a@b.co", some "s3://a",
          some LeadState.PENDING, 0, 0⟩]⟩) ∧
     (∃ lead', (update_lead ⟨[⟨1, some "John", some "Doe", some "a@b.co",
          some "s3://a", some LeadState.PENDING, 0, 0⟩]⟩ 1
          ⟨none, none, none, none, none⟩ 9).1 = Except.ok lead' ∧
       lead'.first_name = some "John")) :=
  ⟨by decide, by decide, rfl, rfl,
   c10_explicit_null_applied
     ⟨[⟨1, some "John", some "Doe", some "a@b.co", some "s3://a",
        some LeadState.PENDING, 0, 0⟩]⟩ 1
     ⟨some none, none, none, none, none⟩ ⟨none, none, none, none, none⟩ 9
     ⟨1, some "John", some "Doe", some "a@b.co", some "s3://a",
        some LeadState.PENDING, 0, 0⟩ (by decide) (by decide) rfl
     (by decide) rfl⟩
